import Mathlib

/-!
# Verification of the Kinvey cached-store orchestrator

A shallow embedding of `src/store/Cached.js`: the policy predicates
(`_shouldCallBoth`, `_shouldCallBothCallbacks`, `_shouldCallFallback`,
`_shouldCallNetworkFirst`, `_shouldUpdateCache`), the read orchestration
(`_read`), the write orchestration (`_write`), the options merger
(`_options`) and `configure`.

The asynchronous callback wiring of `_read` and `_write` is deterministic
for a single logical operation: each backend call's success/error
continuation fires exactly once with an outcome chosen by the backend.
We therefore embed an operation as a pure function from the policy, the
operation descriptor and the backend outcomes to the list of observable
events, in the order the callbacks fire.  Events record backend
invocations, cache writes via `db.put`, and the caller-visible
`success` / `error` / `complete` notifications.
-/

namespace KinveyCached

/-! ## Policies (Cached.js lines 357-392)

Policies are strings in the source; we keep them as strings so that
unrecognized policy values can be reasoned about as well. -/

def NO_CACHE : String := "nocache"

def CACHE_ONLY : String := "cacheonly"

def CACHE_FIRST : String := "cachefirst"

def NETWORK_FIRST : String := "networkfirst"

def BOTH : String := "both"

/-! ## Policy resolver (Cached.js lines 248-298)

Each JS predicate tests membership of the policy in an array via
`indexOf`; we transcribe membership as a disjunction of equalities. -/

/-- `_shouldCallBoth` (lines 248-251): accepted = [CACHE_FIRST, BOTH]. -/
def shouldCallBoth (policy : String) : Bool :=
  policy == CACHE_FIRST || policy == BOTH

/-- `_shouldCallBothCallbacks` (lines 260-262): `BOTH === policy`. -/
def shouldCallBothCallbacks (policy : String) : Bool :=
  BOTH == policy

/-- `_shouldCallFallback` (lines 271-274):
`_shouldCallBoth(policy) || -1 !== [NETWORK_FIRST].indexOf(policy)`. -/
def shouldCallFallback (policy : String) : Bool :=
  shouldCallBoth policy || policy == NETWORK_FIRST

/-- `_shouldCallNetworkFirst` (lines 283-286):
accepted = [NO_CACHE, NETWORK_FIRST]. -/
def shouldCallNetworkFirst (policy : String) : Bool :=
  policy == NO_CACHE || policy == NETWORK_FIRST

/-- `_shouldUpdateCache` (lines 295-298):
accepted = [CACHE_FIRST, NETWORK_FIRST, BOTH]. -/
def shouldUpdateCache (policy : String) : Bool :=
  policy == CACHE_FIRST || policy == NETWORK_FIRST || policy == BOTH

/-! ## Stores and operations -/

/-- The two backends the orchestrator bridges: `this.store` (the AppData
network store) and `this.db` (the local database). -/
inductive Store
  | network
  | localDb
deriving DecidableEq, Repr

/-- Read operations dispatched through `_read` (lines 46-49, 100-114). -/
inductive ReadOp
  | aggregate
  | query
  | queryWithQuery
deriving DecidableEq, Repr

/-- Write operations dispatched through `_write` (lines 122-147). -/
inductive WriteOp
  | save
  | remove
  | removeWithQuery
deriving DecidableEq, Repr

/-- Backend adapter contract (spec section 6): the `info` object passed to a
backend's success/error callback carries a boolean `network` flag that is
true exactly when the response originated from the network store. -/
def infoNetwork : Store → Bool
  | .network => true
  | .localDb => false

/-- Outcome of a single backend read call, chosen by the environment.
Responses and errors are opaque payloads, modelled as naturals. -/
inductive ROutcome
  | success (response : Nat)
  | failure (err : Nat)
deriving DecidableEq, Repr

/-- `true` iff the outcome is a success. -/
def ROutcome.isSuccess : ROutcome → Bool
  | .success _ => true
  | .failure _ => false

/-- Observable events of a read operation, in the order they occur.
`call` is a backend invocation, `put` a cache write through `db.put`,
and `success` / `error` / `complete` are the caller-visible callbacks
(`error` and `success` record the `info.network` flag they receive). -/
inductive REvent
  | call (s : Store) (op : ReadOp) (arg : Nat)
  | put (op : ReadOp) (key : Nat) (val : Nat)
  | success (response : Nat) (network : Bool)
  | error (err : Nat) (network : Bool)
  | complete
deriving DecidableEq, Repr

/-- `db.put(operation, arg, response, ...)` with both a success and an
error continuation; the environment chooses which one fires (`putOk`). -/
def dbPutEvents (op : ReadOp) (key : Nat) (val : Nat) (putOk : Bool)
    (onSuccess onError : List REvent) : List REvent :=
  REvent.put op key val :: (if putOk then onSuccess else onError)

/-- The extended success handler installed by `_read` (lines 189-208).
Given the `invoked` flag's current value, the response and the
`info.network` flag of the store that served it, returns the events it
emits and the new value of `invoked`.

Transcription: `secondPass = invoked`; the application-level success
handler fires when `!invoked || _shouldCallBothCallbacks(policy)`
(setting `invoked = true`); then, when `info.network &&
_shouldUpdateCache(policy)`, the response is written to the cache with
`options.complete` as both continuations (lines 199-202); otherwise,
when `secondPass || !_shouldCallBoth(policy)`, `options.complete()`
fires (lines 205-207). -/
def readSuccessHandler (policy : String) (operation : ReadOp) (arg : Nat)
    (invoked : Bool) (response : Nat) (network : Bool) (putOk : Bool) :
    List REvent × Bool :=
  let secondPass := invoked
  let notified :=
    if !invoked || shouldCallBothCallbacks policy then
      ([REvent.success response network], true)
    else ([], invoked)
  let maintenance :=
    if network && shouldUpdateCache policy then
      dbPutEvents operation arg response putOk [REvent.complete] [REvent.complete]
    else if secondPass || !shouldCallBoth policy then
      [REvent.complete]
    else []
  (notified.1 ++ maintenance, notified.2)

/-- `_read` (lines 180-239) as a trace function.

The primary store is the network store when
`_shouldCallNetworkFirst(policy)`, else the local database; the
secondary store is the other one (lines 182-184).  The primary call's
success handler (lines 212-221) runs the extended success handler and,
when `_shouldCallBoth(policy)`, resets `options.error` to a bare
`options.complete()` and invokes the secondary store with the same
(mutated) options.  The primary call's error handler (lines 223-237)
falls back to the secondary store when `_shouldCallFallback(policy)`,
wrapping the caller's error so that the secondary's failure triggers
the caller's error followed by `options.complete()`; with no fallback it
triggers the caller's error and `options.complete()` directly.

`primaryOut` / `secondaryOut` are the outcomes the backends deliver
(`secondaryOut` is ignored when no secondary call is made), `putOk`
whether a cache write settles with success. -/
def readSim (policy : String) (operation : ReadOp) (arg : Nat)
    (primaryOut secondaryOut : ROutcome) (putOk : Bool) : List REvent :=
  let networkFirst := shouldCallNetworkFirst policy
  let primaryStore := if networkFirst then Store.network else Store.localDb
  let secondaryStore := if networkFirst then Store.localDb else Store.network
  REvent.call primaryStore operation arg ::
    match primaryOut with
    | .success response =>
        let handled :=
          readSuccessHandler policy operation arg false response
            (infoNetwork primaryStore) putOk
        if shouldCallBoth policy then
          handled.1 ++ REvent.call secondaryStore operation arg ::
            match secondaryOut with
            | .success r2 =>
                (readSuccessHandler policy operation arg handled.2 r2
                  (infoNetwork secondaryStore) putOk).1
            | .failure _ => [REvent.complete]
        else handled.1
    | .failure err =>
        if shouldCallFallback policy then
          REvent.call secondaryStore operation arg ::
            match secondaryOut with
            | .success r2 =>
                (readSuccessHandler policy operation arg false r2
                  (infoNetwork secondaryStore) putOk).1
            | .failure e2 =>
                [REvent.error e2 (infoNetwork secondaryStore), REvent.complete]
        else
          [REvent.error err (infoNetwork primaryStore), REvent.complete]

/-! ## Event counting -/

/-- Number of caller-visible success notifications in a read trace. -/
def countSuccessR : List REvent → Nat
  | [] => 0
  | REvent.success _ _ :: t => countSuccessR t + 1
  | _ :: t => countSuccessR t

/-- Number of caller-visible error notifications in a read trace. -/
def countErrorR : List REvent → Nat
  | [] => 0
  | REvent.error _ _ :: t => countErrorR t + 1
  | _ :: t => countErrorR t

/-- Number of completion notifications in a read trace. -/
def countCompleteR : List REvent → Nat
  | [] => 0
  | REvent.complete :: t => countCompleteR t + 1
  | _ :: t => countCompleteR t

/-- Number of cache writes in a read trace. -/
def countPutR : List REvent → Nat
  | [] => 0
  | REvent.put _ _ _ :: t => countPutR t + 1
  | _ :: t => countPutR t

/-- `true` iff the event is an invocation of the network backend. -/
def touchesNetworkR : REvent → Bool
  | REvent.call Store.network _ _ => true
  | _ => false

/-! ## Write path (`_write`, Cached.js lines 309-353) -/

/-- A saved document: `save` responses carry an identity `_id` used as
the cache key; the rest of the document is an opaque payload. -/
structure Doc where
  id : Nat
  payload : Nat
deriving DecidableEq, Repr

/-- Outcome of the network store's write call.  A success response may be
`null` (modelled as `none`): line 329 guards on `null != response`. -/
inductive WOutcome
  | success (response : Option Doc)
  | failure (err : Nat)
deriving DecidableEq, Repr

/-- `true` iff the outcome is a success. -/
def WOutcome.isSuccess : WOutcome → Bool
  | .success _ => true
  | .failure _ => false

/-- Cache slots targeted by the write path's `db.put`: the first element
of each cache handle is the read-operation name `query` or
`queryWithQuery` (lines 323-330). -/
inductive CacheSlot
  | query
  | queryWithQuery
deriving DecidableEq, Repr

/-- Observable events of a write operation, in order: the network store
invocation, cache writes, and the caller-visible callbacks. -/
inductive WEvent
  | call (op : WriteOp) (arg : Nat)
  | put (slot : CacheSlot) (key : Nat) (val : Option Doc)
  | success (response : Option Doc) (network : Bool)
  | error (err : Nat) (network : Bool)
  | complete
deriving DecidableEq, Repr

/-- The cache handle of `_write` (lines 322-331): a per-operation
directive `(slot, key, value)`, where `remove` and `removeWithQuery`
always invalidate (value `none`), and `save` caches the response keyed
by its `_id` only when the collection is not `user` and the response is
not null; otherwise `cacheHandle[operation]` is undefined (`none`). -/
def cacheHandle (collection : String) (operation : WriteOp) (arg : Nat)
    (response : Option Doc) : Option (CacheSlot × Nat × Option Doc) :=
  match operation with
  | .remove => some (CacheSlot.query, arg, none)
  | .removeWithQuery => some (CacheSlot.queryWithQuery, arg, none)
  | .save =>
      if collection != "user" then
        match response with
        | some doc => some (CacheSlot.query, doc.id, some doc)
        | none => none
      else none

/-- `_write` (lines 309-353) as a trace function.

The operation is performed on the network store only (line 352).  On
failure, the caller's error fires followed by `options.complete()`
(lines 345-349).  On success, the caller's success fires first
(line 315); then, when `_shouldUpdateCache(options.policy)` and a cache
handle is defined for the operation, `db.put` is applied with
`options.complete` as both its success and error continuation
(lines 334-341); otherwise `options.complete()` fires directly
(line 343). -/
def writeSim (collection : String) (policy : String) (operation : WriteOp)
    (arg : Nat) (out : WOutcome) (putOk : Bool) : List WEvent :=
  WEvent.call operation arg ::
    match out with
    | .success response =>
        WEvent.success response (infoNetwork Store.network) ::
          (if shouldUpdateCache policy then
            match cacheHandle collection operation arg response with
            | some (slot, key, val) =>
                WEvent.put slot key val ::
                  (if putOk then [WEvent.complete] else [WEvent.complete])
            | none => [WEvent.complete]
          else [WEvent.complete])
    | .failure err =>
        [WEvent.error err (infoNetwork Store.network), WEvent.complete]

/-- Number of caller-visible success notifications in a write trace. -/
def countSuccessW : List WEvent → Nat
  | [] => 0
  | WEvent.success _ _ :: t => countSuccessW t + 1
  | _ :: t => countSuccessW t

/-- Number of caller-visible error notifications in a write trace. -/
def countErrorW : List WEvent → Nat
  | [] => 0
  | WEvent.error _ _ :: t => countErrorW t + 1
  | _ :: t => countErrorW t

/-- Number of completion notifications in a write trace. -/
def countCompleteW : List WEvent → Nat
  | [] => 0
  | WEvent.complete :: t => countCompleteW t + 1
  | _ :: t => countCompleteW t

/-- Number of cache writes in a write trace. -/
def countPutW : List WEvent → Nat
  | [] => 0
  | WEvent.put _ _ _ :: t => countPutW t + 1
  | _ :: t => countPutW t

/-! ## Options merger (`_options`, lines 156-169) and `configure`
(lines 61-70)

JS guards each field with a truthiness test (`options.policy ||
(options.policy = ...)`); an absent or falsy field is modelled as
`none`.  Callbacks are opaque: we only need to distinguish the library's
no-op defaults (lines 13-15) from caller-supplied functions. -/

/-- A callback value: the library's no-op default or a caller-supplied
function identified by a tag. -/
inductive CB
  | noop
  | user (tag : Nat)
deriving DecidableEq, Repr

/-- The per-instance options (`this.options`): policy, store sub-options
(opaque, modelled as a natural) and the three callbacks. -/
structure InstOptions where
  policy : String
  store : Nat
  success : CB
  error : CB
  complete : CB
deriving DecidableEq, Repr

/-- Call-site options: every field may be absent (or falsy). -/
structure CallOpts where
  policy : Option String
  store : Option Nat
  success : Option CB
  error : Option CB
  complete : Option CB
deriving DecidableEq, Repr

/-- A `CallOpts` with every field absent. -/
def CallOpts.empty : CallOpts := ⟨none, none, none, none, none⟩

/-- The effective options `_options` returns, together with the store
sub-options pushed into `this.store.configure` (line 161). -/
structure EffOptions where
  policy : String
  configuredStore : Nat
  success : CB
  error : CB
  complete : CB
deriving DecidableEq, Repr

/-- The instance options after construction with no configuration:
the literal at lines 9-16 (no-op callbacks, empty store sub-options)
with the default policy set to `NETWORK_FIRST` by the constructor
(line 34). -/
def defaultInstOptions : InstOptions :=
  { policy := NETWORK_FIRST, store := 0,
    success := CB.noop, error := CB.noop, complete := CB.noop }

/-- `configure` (lines 61-70): each truthy field of the argument
replaces the instance's value. -/
def configure (inst : InstOptions) (o : CallOpts) : InstOptions :=
  { policy := o.policy.getD inst.policy
    store := o.store.getD inst.store
    success := o.success.getD inst.success
    error := o.error.getD inst.error
    complete := o.complete.getD inst.complete }

/-- `_options` (lines 156-169): `options || (options = \x7b\x7d)`, then
each falsy field falls back to the instance's value.  The store
sub-options are additionally pushed into the network store's
`configure` (line 161), recorded here as `configuredStore`. -/
def mergeOptions (inst : InstOptions) (o : Option CallOpts) : EffOptions :=
  let oo := o.getD CallOpts.empty
  { policy := oo.policy.getD inst.policy
    configuredStore := oo.store.getD inst.store
    success := oo.success.getD inst.success
    error := oo.error.getD inst.error
    complete := oo.complete.getD inst.complete }

/-! ## Theorems -/

/-- Every policy string is one of the five constants, or else all five
resolver predicates are false on it (an unrecognized policy behaves
like `CACHE_ONLY` in the orchestration). -/
theorem policy_cases (p : String) :
    p = NO_CACHE ∨ p = CACHE_ONLY ∨ p = CACHE_FIRST ∨ p = NETWORK_FIRST ∨ p = BOTH ∨
    (p ≠ NO_CACHE ∧ p ≠ CACHE_ONLY ∧ p ≠ CACHE_FIRST ∧ p ≠ NETWORK_FIRST ∧ p ≠ BOTH ∧
     shouldCallBoth p = false ∧ shouldCallBothCallbacks p = false ∧
     shouldCallFallback p = false ∧ shouldCallNetworkFirst p = false ∧
     shouldUpdateCache p = false) := by
  by_cases h1 : p = NO_CACHE
  · exact Or.inl h1
  by_cases h2 : p = CACHE_ONLY
  · exact Or.inr (Or.inl h2)
  by_cases h3 : p = CACHE_FIRST
  · exact Or.inr (Or.inr (Or.inl h3))
  by_cases h4 : p = NETWORK_FIRST
  · exact Or.inr (Or.inr (Or.inr (Or.inl h4)))
  by_cases h5 : p = BOTH
  · exact Or.inr (Or.inr (Or.inr (Or.inr (Or.inl h5))))
  refine Or.inr (Or.inr (Or.inr (Or.inr (Or.inr
    ⟨h1, h2, h3, h4, h5, ?_, ?_, ?_, ?_, ?_⟩))))
  · simp [shouldCallBoth, beq_eq_false_iff_ne]
    tauto
  · simp [shouldCallBothCallbacks, beq_eq_false_iff_ne]
    tauto
  · simp [shouldCallFallback, shouldCallBoth, beq_eq_false_iff_ne]
    tauto
  · simp [shouldCallNetworkFirst, beq_eq_false_iff_ne]
    tauto
  · simp [shouldUpdateCache, beq_eq_false_iff_ne]
    tauto

/-- C1 (counterexample): the claim that exactly one terminal
notification reaches the caller through success or error is false as
stated: under the `Both` policy, when both the local and the network
read succeed, the caller's success callback fires twice for the one
logical operation. -/
theorem both_policy_double_success_cex :
    countSuccessR (readSim BOTH ReadOp.query 0
      (ROutcome.success 1) (ROutcome.success 2) true) = 2 := by
  decide

/-- C1 (amended): for every read and write operation, under every
policy (any string) and every combination of backend outcomes: exactly
one completion notification fires; the caller's success and error are
mutually exclusive and at least one of them is delivered; the caller
receives exactly one terminal notification except under the `Both`
policy when both reads succeed, in which case exactly two success
notifications fire; writes always deliver exactly one terminal
notification. -/
theorem callback_discipline :
    (∀ (policy : String) (op : ReadOp) (arg : Nat) (pOut sOut : ROutcome) (putOk : Bool),
      countCompleteR (readSim policy op arg pOut sOut putOk) = 1 ∧
      ((countErrorR (readSim policy op arg pOut sOut putOk) = 0 ∧
          (countSuccessR (readSim policy op arg pOut sOut putOk) = 1 ∨
           countSuccessR (readSim policy op arg pOut sOut putOk) = 2)) ∨
        (countErrorR (readSim policy op arg pOut sOut putOk) = 1 ∧
          countSuccessR (readSim policy op arg pOut sOut putOk) = 0)) ∧
      (countSuccessR (readSim policy op arg pOut sOut putOk) = 2 ↔
        (policy = BOTH ∧ pOut.isSuccess = true ∧ sOut.isSuccess = true))) ∧
    (∀ (collection policy : String) (op : WriteOp) (arg : Nat) (out : WOutcome) (putOk : Bool),
      countCompleteW (writeSim collection policy op arg out putOk) = 1 ∧
      countSuccessW (writeSim collection policy op arg out putOk) +
        countErrorW (writeSim collection policy op arg out putOk) = 1) := by
  constructor
  · intro policy op arg pOut sOut putOk
    rcases policy_cases policy with h|h|h|h|h|⟨n1,n2,n3,n4,n5,hb,hbc,hf,hn,hu⟩
    · subst h
      cases pOut <;> cases sOut <;> cases putOk <;>
        simp [readSim, readSuccessHandler, dbPutEvents, infoNetwork,
          countCompleteR, countErrorR, countSuccessR, ROutcome.isSuccess,
          shouldCallBoth, shouldCallBothCallbacks, shouldCallFallback,
          shouldCallNetworkFirst, shouldUpdateCache, NO_CACHE, CACHE_ONLY,
          CACHE_FIRST, NETWORK_FIRST, BOTH]
    · subst h
      cases pOut <;> cases sOut <;> cases putOk <;>
        simp [readSim, readSuccessHandler, dbPutEvents, infoNetwork,
          countCompleteR, countErrorR, countSuccessR, ROutcome.isSuccess,
          shouldCallBoth, shouldCallBothCallbacks, shouldCallFallback,
          shouldCallNetworkFirst, shouldUpdateCache, NO_CACHE, CACHE_ONLY,
          CACHE_FIRST, NETWORK_FIRST, BOTH]
    · subst h
      cases pOut <;> cases sOut <;> cases putOk <;>
        simp [readSim, readSuccessHandler, dbPutEvents, infoNetwork,
          countCompleteR, countErrorR, countSuccessR, ROutcome.isSuccess,
          shouldCallBoth, shouldCallBothCallbacks, shouldCallFallback,
          shouldCallNetworkFirst, shouldUpdateCache, NO_CACHE, CACHE_ONLY,
          CACHE_FIRST, NETWORK_FIRST, BOTH]
    · subst h
      cases pOut <;> cases sOut <;> cases putOk <;>
        simp [readSim, readSuccessHandler, dbPutEvents, infoNetwork,
          countCompleteR, countErrorR, countSuccessR, ROutcome.isSuccess,
          shouldCallBoth, shouldCallBothCallbacks, shouldCallFallback,
          shouldCallNetworkFirst, shouldUpdateCache, NO_CACHE, CACHE_ONLY,
          CACHE_FIRST, NETWORK_FIRST, BOTH]
    · subst h
      cases pOut <;> cases sOut <;> cases putOk <;>
        simp [readSim, readSuccessHandler, dbPutEvents, infoNetwork,
          countCompleteR, countErrorR, countSuccessR, ROutcome.isSuccess,
          shouldCallBoth, shouldCallBothCallbacks, shouldCallFallback,
          shouldCallNetworkFirst, shouldUpdateCache, NO_CACHE, CACHE_ONLY,
          CACHE_FIRST, NETWORK_FIRST, BOTH]
    · cases pOut <;> cases sOut <;> cases putOk <;>
        simp [readSim, readSuccessHandler, dbPutEvents, infoNetwork,
          countCompleteR, countErrorR, countSuccessR, ROutcome.isSuccess,
          hb, hbc, hf, hn, hu, n5]
  · intro collection policy op arg out putOk
    cases out with
    | failure err =>
        simp [writeSim, countCompleteW, countSuccessW, countErrorW]
    | success response =>
        cases hu : shouldUpdateCache policy with
        | false =>
            simp [writeSim, hu, countCompleteW, countSuccessW, countErrorW]
        | true =>
            cases hch : cacheHandle collection op arg response with
            | none =>
                simp [writeSim, hu, hch, countCompleteW, countSuccessW, countErrorW]
            | some d =>
                obtain ⟨slot, key, val⟩ := d
                cases putOk <;>
                  simp [writeSim, hu, hch, countCompleteW, countSuccessW, countErrorW]

/-- C2: the policy resolver is a pure mapping matching the table:
serve-network-first holds exactly on NoCache and NetworkFirst,
allow-both exactly on CacheFirst and Both, allow-cache-update exactly
on CacheFirst, NetworkFirst and Both, allow-fallback equals allow-both
OR the policy being NetworkFirst, and hence holds exactly on
CacheFirst, NetworkFirst and Both. -/
theorem policy_resolver_table :
    (∀ p : String, shouldCallNetworkFirst p = true ↔ (p = NO_CACHE ∨ p = NETWORK_FIRST)) ∧
    (∀ p : String, shouldCallBoth p = true ↔ (p = CACHE_FIRST ∨ p = BOTH)) ∧
    (∀ p : String, shouldUpdateCache p = true ↔
      (p = CACHE_FIRST ∨ p = NETWORK_FIRST ∨ p = BOTH)) ∧
    (∀ p : String, shouldCallFallback p = (shouldCallBoth p || (p == NETWORK_FIRST))) ∧
    (∀ p : String, shouldCallFallback p = true ↔
      (p = CACHE_FIRST ∨ p = NETWORK_FIRST ∨ p = BOTH)) := by
  refine ⟨fun p => ?_, fun p => ?_, fun p => ?_, fun p => rfl, fun p => ?_⟩
  · simp [shouldCallNetworkFirst]
  · simp [shouldCallBoth]
  · simp [shouldUpdateCache, or_assoc]
  · simp [shouldCallFallback, shouldCallBoth, or_assoc]
    tauto

/-- C3: under the `Both` policy, when the local (primary) read succeeds
and the network (secondary) read then succeeds, the caller receives the
local success first and the network success second, the secondary call
is dispatched only after the primary's outcome, and completion fires
exactly once, after the cache write of the network response settles. -/
theorem both_read_two_successes_in_order (op : ReadOp) (arg r1 r2 : Nat) (putOk : Bool) :
    readSim BOTH op arg (ROutcome.success r1) (ROutcome.success r2) putOk =
      [REvent.call Store.localDb op arg, REvent.success r1 false,
       REvent.call Store.network op arg, REvent.success r2 true,
       REvent.put op arg r2, REvent.complete] := by
  cases putOk <;> rfl

/-- C4: a `save` on the `user` collection never issues a cache write,
regardless of policy and outcome; a `save` on any other collection,
under a policy that allows cache updates and with a non-null response,
issues exactly one `db.put` into the `query` cache slot keyed by the
response's `_id` with the full response as value, and the trace is
exactly call, success, put, complete. -/
theorem save_cache_write_rules (collection policy : String) (arg : Nat)
    (out : WOutcome) (putOk : Bool) (doc : Doc) :
    (collection = "user" →
      countPutW (writeSim collection policy WriteOp.save arg out putOk) = 0) ∧
    (collection ≠ "user" → shouldUpdateCache policy = true →
      writeSim collection policy WriteOp.save arg (WOutcome.success (some doc)) putOk =
        [WEvent.call WriteOp.save arg, WEvent.success (some doc) true,
         WEvent.put CacheSlot.query doc.id (some doc), WEvent.complete]) := by
  constructor
  · intro hc
    subst hc
    cases hu : shouldUpdateCache policy <;> cases out <;>
      simp [writeSim, cacheHandle, infoNetwork, countPutW, hu]
  · intro hc hu
    cases putOk <;>
      simp [writeSim, cacheHandle, infoNetwork, hu, bne_iff_ne, hc]

/-- C4 witness: concrete instances of both parts: a `save` of document
3 to the `user` collection under `Both` writes nothing to the cache; a
`save` to the `books` collection under `CacheFirst` puts the response
into the `query` slot keyed by its id. -/
theorem save_cache_write_rules_witness :
    countPutW (writeSim "user" BOTH WriteOp.save 7
      (WOutcome.success (some ⟨3, 5⟩)) true) = 0 ∧
    writeSim "books" CACHE_FIRST WriteOp.save 7
        (WOutcome.success (some ⟨3, 5⟩)) true =
      [WEvent.call WriteOp.save 7, WEvent.success (some ⟨3, 5⟩) true,
       WEvent.put CacheSlot.query 3 (some ⟨3, 5⟩), WEvent.complete] :=
  ⟨(save_cache_write_rules "user" BOTH 7 (WOutcome.success (some ⟨3, 5⟩)) true ⟨3, 5⟩).1 rfl,
   (save_cache_write_rules "books" CACHE_FIRST 7 (WOutcome.success (some ⟨3, 5⟩)) true ⟨3, 5⟩).2
     (by decide) (by decide)⟩

/-- C5: under `NetworkFirst`, when the network (primary) read fails and
the local (fallback) read succeeds, the caller's success receives the
local response (network flag false), no cache write occurs, and
completion fires immediately after the success. -/
theorem networkfirst_fallback_local_success (op : ReadOp) (arg err r : Nat) (putOk : Bool) :
    readSim NETWORK_FIRST op arg (ROutcome.failure err) (ROutcome.success r) putOk =
      [REvent.call Store.network op arg, REvent.call Store.localDb op arg,
       REvent.success r false, REvent.complete] := by
  cases putOk <;> rfl

/-- C6: under `CacheOnly`, a read — issued twice in a row, with any
outcomes — never invokes the network backend, and each run resolves
from the local store alone: its trace is exactly the local call
followed by the local outcome's notification and completion. -/
theorem cacheonly_reads_local_only (op : ReadOp) (arg : Nat)
    (o1 o2 s1 s2 : ROutcome) (p1 p2 : Bool) :
    ((readSim CACHE_ONLY op arg o1 s1 p1 ++ readSim CACHE_ONLY op arg o2 s2 p2).all
        fun e => !touchesNetworkR e) = true ∧
    readSim CACHE_ONLY op arg o1 s1 p1 =
      REvent.call Store.localDb op arg ::
        (match o1 with
         | ROutcome.success r => [REvent.success r false, REvent.complete]
         | ROutcome.failure e => [REvent.error e false, REvent.complete]) := by
  cases o1 <;> cases o2 <;> cases p1 <;> cases p2 <;>
    simp [readSim, readSuccessHandler, dbPutEvents, infoNetwork, touchesNetworkR,
      shouldCallBoth, shouldCallBothCallbacks, shouldCallFallback,
      shouldCallNetworkFirst, shouldUpdateCache, NO_CACHE, CACHE_ONLY,
      CACHE_FIRST, NETWORK_FIRST, BOTH]

/-- C7: under `NoCache`, when the network read fails, the caller's
error receives the network error directly (whatever the local store
would have returned), there is no fallback call, and completion fires
immediately after the error. -/
theorem nocache_error_no_fallback (op : ReadOp) (arg err : Nat)
    (sOut : ROutcome) (putOk : Bool) :
    readSim NO_CACHE op arg (ROutcome.failure err) sOut putOk =
      [REvent.call Store.network op arg, REvent.error err true, REvent.complete] := by
  cases putOk <;> rfl

/-- C10: under the `Both` policy, when the local (primary) read fails
and the network (secondary) read succeeds, the caller receives exactly
one success notification carrying the network response, the response is
written into the local cache, and the single completion fires after
that write settles. -/
theorem both_local_fail_network_success (op : ReadOp) (arg err r : Nat) (putOk : Bool) :
    readSim BOTH op arg (ROutcome.failure err) (ROutcome.success r) putOk =
      [REvent.call Store.localDb op arg, REvent.call Store.network op arg,
       REvent.success r true, REvent.put op arg r, REvent.complete] ∧
    countSuccessR (readSim BOTH op arg (ROutcome.failure err) (ROutcome.success r) putOk) = 1 := by
  cases putOk <;> exact ⟨rfl, by simp [readSim, readSuccessHandler, dbPutEvents,
    infoNetwork, countSuccessR, shouldCallBoth, shouldCallBothCallbacks,
    shouldCallFallback, shouldCallNetworkFirst, shouldUpdateCache, BOTH]⟩

/-- C8 (counterexample): `_options` neither rejects an unrecognized
policy value nor falls back to the instance default: the value `bogus`,
outside the five enumerated policies, is kept verbatim in the effective
options and differs from the instance default policy. -/
theorem invalid_policy_passthrough_cex :
    (mergeOptions defaultInstOptions
        (some ⟨some "bogus", none, none, none, none⟩)).policy = "bogus" ∧
    "bogus" ≠ NO_CACHE ∧ "bogus" ≠ CACHE_ONLY ∧ "bogus" ≠ CACHE_FIRST ∧
    "bogus" ≠ NETWORK_FIRST ∧ "bogus" ≠ BOTH ∧
    (mergeOptions defaultInstOptions
        (some ⟨some "bogus", none, none, none, none⟩)).policy ≠
      defaultInstOptions.policy := by
  decide

/-- C8 (amended): the options merger performs no validation of the
policy: any present (truthy) policy value, recognized or not, is passed
through unchanged into the effective options, and only an absent policy
falls back to the instance default. -/
theorem merge_policy_passthrough (inst : InstOptions) (o : CallOpts) (p : String) :
    (o.policy = some p → (mergeOptions inst (some o)).policy = p) ∧
    (o.policy = none → (mergeOptions inst (some o)).policy = inst.policy) := by
  constructor <;> intro h <;> simp [mergeOptions, h]

/-- C8 witness: the unrecognized policy `bogus` is passed through; an
absent policy yields the default `NETWORK_FIRST`. -/
theorem merge_policy_passthrough_witness :
    (mergeOptions defaultInstOptions
        (some ⟨some "bogus", none, none, none, none⟩)).policy = "bogus" ∧
    (mergeOptions defaultInstOptions
        (some ⟨none, some 3, none, none, none⟩)).policy = NETWORK_FIRST :=
  ⟨(merge_policy_passthrough defaultInstOptions
      ⟨some "bogus", none, none, none, none⟩ "bogus").1 rfl,
   (merge_policy_passthrough defaultInstOptions
      ⟨none, some 3, none, none, none⟩ "x").2 rfl⟩

/-- C9 (counterexample): a missing call-site callback is not replaced
by a no-op: on an instance whose success callback was set through
`configure`, a call with no success callback receives the configured
callback, not a no-op. -/
theorem merge_configured_callback_cex :
    (mergeOptions
        (configure defaultInstOptions ⟨none, none, some (CB.user 1), none, none⟩)
        (some ⟨some CACHE_FIRST, none, none, none, none⟩)).success = CB.user 1 ∧
    CB.user 1 ≠ CB.noop := by
  decide

/-- C9 (amended): for every call-site options value, including an
absent one, the merge is total and leaves no callback slot empty: a
missing policy is replaced by the instance default policy, and each
missing success/error/complete callback is replaced by the instance's
configured callback — which is the library's no-op unless overridden
through `configure` — never by a null value. -/
theorem merge_missing_field_defaults (inst : InstOptions) (o : Option CallOpts) (co : CallOpts) :
    (mergeOptions inst none =
      ⟨inst.policy, inst.store, inst.success, inst.error, inst.complete⟩) ∧
    (o = some co → co.policy = none → (mergeOptions inst o).policy = inst.policy) ∧
    (o = some co → co.success = none → (mergeOptions inst o).success = inst.success) ∧
    (o = some co → co.error = none → (mergeOptions inst o).error = inst.error) ∧
    (o = some co → co.complete = none → (mergeOptions inst o).complete = inst.complete) ∧
    (inst = defaultInstOptions → o = some co → co.success = none →
      (mergeOptions inst o).success = CB.noop) := by
  refine ⟨rfl, ?_, ?_, ?_, ?_, ?_⟩
  · intro h1 h2
    simp [mergeOptions, h1, h2]
  · intro h1 h2
    simp [mergeOptions, h1, h2]
  · intro h1 h2
    simp [mergeOptions, h1, h2]
  · intro h1 h2
    simp [mergeOptions, h1, h2]
  · intro h1 h2 h3
    simp [mergeOptions, h1, h2, h3, defaultInstOptions]

/-- C9 witness: merging an absent options object on a fresh instance
yields the default policy, empty store sub-options and no-op callbacks;
a call that only supplies an error callback still gets the no-op
success callback. -/
theorem merge_missing_field_defaults_witness :
    (mergeOptions defaultInstOptions none =
      ⟨NETWORK_FIRST, 0, CB.noop, CB.noop, CB.noop⟩) ∧
    (mergeOptions defaultInstOptions
        (some ⟨none, none, none, some (CB.user 2), none⟩)).success = CB.noop :=
  ⟨by
    have h := (merge_missing_field_defaults defaultInstOptions none CallOpts.empty).1
    simpa [defaultInstOptions] using h,
   (merge_missing_field_defaults defaultInstOptions
      (some ⟨none, none, none, some (CB.user 2), none⟩)
      ⟨none, none, none, some (CB.user 2), none⟩).2.2.1 rfl rfl⟩

end KinveyCached
